import Mathlib

/-!
Shallow embedding of the drogulus DHT node core, translated from
`src/drogulus/dht/node.py` and `src/drogulus/dht/kbucket.py`.

Conventions used throughout:

* Node ids and keys are 160-bit identifiers in the source (hex strings
  interpreted as numbers, e.g. in `KBucket.keyInRange`); they are embedded
  as `Nat`.
* Timestamps are embedded as `Nat` (the source uses POSIX seconds).
* `log.msg` calls are not modelled: they change no state the rest of the
  code observes.
* Side effects of a handler (sending a message, scheduling a reactor call,
  aborting the transport, firing or cancelling a deferred, routing-table
  calls) are recorded in an explicit `Effect` trace; routing-table
  mutations are additionally applied to the modelled table so that the
  resulting table is observable.
* A Python `raise ValueError(code, title, details, uuid)` inside a handler
  is returned as `Outcome.raised`.
* Components that node.py imports but that are not part of the repository
  snapshot (the `RoutingTable`, `DictDataStore`, `Contact` equality, the
  `constants` module and the crypto `validate_message`) are modelled from
  the spec; each such definition says so in its doc comment.
-/

/-- Modelled from the spec: the replication parameter K = 20 (the
`constants` module is not part of the snapshot). -/
def K : Nat := 20

/-- Modelled from the spec: the configuration constant `REPLICATE_INTERVAL`
(the `constants` module is not part of the snapshot); no claim depends on
its numeric value. -/
def REPLICATE_INTERVAL : Nat := 3600

/-- Modelled from the spec: the configuration constant `RESPONSE_TIMEOUT`
(the `constants` module is not part of the snapshot); no claim depends on
its numeric value. -/
def RESPONSE_TIMEOUT : Nat := 1800

/-- Modelled from the spec: the error-title table `constants.ERRORS`
(1 invalid message, 6 invalid signature, 8 out of date). The claims depend
only on the codes, never on the title text. -/
def ERRORS (code : Nat) : String :=
  if code = 1 then "Invalid message."
  else if code = 6 then "Invalid signature."
  else if code = 8 then "Out of date data."
  else ""

/-- A peer contact. The `Contact` class is not part of the snapshot; its
fields and its id-based equality are modelled from the spec (two contacts
are equal iff their ids match), which is why every membership or removal
below compares `.id` fields. -/
structure Contact where
  id : Nat
  address : String
  port : Nat
  version : String
  last_seen : Nat
deriving DecidableEq, Repr

/-- Wire message `Ping {uuid, node, version}`. -/
structure PingMsg where
  uuid : String
  node : Nat
  version : String
deriving DecidableEq, Repr

/-- Wire message `Pong {uuid, node, version}`. -/
structure PongMsg where
  uuid : String
  node : Nat
  version : String
deriving DecidableEq, Repr

/-- Wire message `Store {uuid, node, key, value, timestamp, expires,
public_key, name, meta, sig, version}`; also the record type held by the
data store, since `handle_store` stores the message itself. -/
structure StoreMsg where
  uuid : String
  node : Nat
  key : Nat
  value : String
  timestamp : Nat
  expires : Nat
  public_key : String
  name : String
  meta : String
  sig : String
  version : String
deriving DecidableEq, Repr

/-- Wire message `FindNode {uuid, node, key, version}`. -/
structure FindNodeMsg where
  uuid : String
  node : Nat
  key : Nat
  version : String
deriving DecidableEq, Repr

/-- Wire message `FindValue {uuid, node, key, version}`. -/
structure FindValueMsg where
  uuid : String
  node : Nat
  key : Nat
  version : String
deriving DecidableEq, Repr

/-- Wire message `Nodes {uuid, node, nodes, version}`; each entry of
`nodes` is an `(id, address, port, version)` tuple. -/
structure NodesMsg where
  uuid : String
  node : Nat
  nodes : List (Nat × String × Nat × String)
  version : String
deriving DecidableEq, Repr

/-- Wire message `Value`, carrying the same record fields as `Store`. -/
structure ValueMsg where
  uuid : String
  node : Nat
  key : Nat
  value : String
  timestamp : Nat
  expires : Nat
  public_key : String
  name : String
  meta : String
  sig : String
  version : String
deriving DecidableEq, Repr

/-- Wire message `Error {uuid, node, code, title, details, version}`. -/
structure ErrorMsg where
  uuid : String
  node : Nat
  code : Nat
  title : String
  details : List (String × String)
  version : String
deriving DecidableEq, Repr

/-- The tagged union of the eight wire message classes dispatched by
`Node.message_received`. -/
inductive Message where
  | ping (m : PingMsg)
  | pong (m : PongMsg)
  | store (m : StoreMsg)
  | findNode (m : FindNodeMsg)
  | findValue (m : FindValueMsg)
  | error (m : ErrorMsg)
  | value (m : ValueMsg)
  | nodes (m : NodesMsg)
deriving DecidableEq, Repr

/-- The `uuid` attribute every message class carries. -/
def Message.uuid : Message → String
  | Message.ping m => m.uuid
  | Message.pong m => m.uuid
  | Message.store m => m.uuid
  | Message.findNode m => m.uuid
  | Message.findValue m => m.uuid
  | Message.error m => m.uuid
  | Message.value m => m.uuid
  | Message.nodes m => m.uuid

/-- The `node` attribute every message class carries (the sender's id for
inbound messages; the local node's id for outbound ones, since every
constructor call in node.py passes `self.id`). -/
def Message.node : Message → Nat
  | Message.ping m => m.node
  | Message.pong m => m.node
  | Message.store m => m.node
  | Message.findNode m => m.node
  | Message.findValue m => m.node
  | Message.error m => m.node
  | Message.value m => m.node
  | Message.nodes m => m.node

/-- The `version` attribute every message class carries. -/
def Message.version : Message → String
  | Message.ping m => m.version
  | Message.pong m => m.version
  | Message.store m => m.version
  | Message.findNode m => m.version
  | Message.findValue m => m.version
  | Message.error m => m.version
  | Message.value m => m.version
  | Message.nodes m => m.version

/-- A reactor call scheduled with `reactor.callLater`. -/
inductive ScheduledCall where
  | sendReplicate (m : StoreMsg)
  | responseTimeout (m : Message)
deriving DecidableEq, Repr

/-- The observable side effects a node function can perform, in the order
the source performs them. -/
inductive Effect where
  | send (m : Message) (close : Bool)
  | callLater (delay : Nat) (call : ScheduledCall)
  | abortConnection
  | cancelDeferred (d : Nat)
  | callback (d : Nat) (m : Message)
  | errback (d : Nat) (e : String) (m : Message)
  | addContact (c : Contact)
  | removeContact (cid : Nat) (forced : Bool)
deriving DecidableEq, Repr

/-- The state a `Node` object carries: its id and version, the routing
table, the data store and the `_pending` dictionary (uuid to deferred
handle). The routing table is a flat contact list and the data store an
association list, per the spec models below. -/
structure NodeState where
  id : Nat
  version : String
  routingTable : List Contact
  dataStore : List (Nat × StoreMsg)
  pending : List (String × Nat)
deriving DecidableEq, Repr

/-- Whether a Python handler returned normally or raised
`ValueError(code, title, details, uuid)`. -/
inductive Outcome where
  | ok
  | raised (code : Nat) (title : String) (details : List (String × String)) (uuid : String)
deriving DecidableEq, Repr

/-- Modelled from the spec: `RoutingTable.remove_contact` removes the
contact with the given id (the spec notes the original "simply removes"). -/
def remove_contact (rt : List Contact) (cid : Nat) : List Contact :=
  rt.eraseP (fun c => c.id == cid)

/-- Modelled from the spec: `RoutingTable.add_contact` over a routing table
below capacity. It refuses the local node's own id, moves an already known
contact to the most-recently-seen tail, and otherwise appends. Bucket
splitting and the LRU liveness probe on a full bucket are not modelled: no
claim reaches a full table. -/
def add_contact (selfId : Nat) (rt : List Contact) (c : Contact) : List Contact :=
  if c.id == selfId then rt
  else if rt.any (fun x => x.id == c.id) then rt.eraseP (fun x => x.id == c.id) ++ [c]
  else if rt.length < K then rt ++ [c]
  else rt

/-- XOR distance between two 160-bit identifiers (spec: identifier
arithmetic). -/
def distance (a b : Nat) : Nat := Nat.xor a b

/-- Insert a contact into a list sorted by XOR distance to `target`. -/
def insertByDist (target : Nat) (c : Contact) : List Contact → List Contact
  | [] => [c]
  | x :: xs =>
      if distance c.id target ≤ distance x.id target then c :: x :: xs
      else x :: insertByDist target c xs

/-- Sort contacts ascending by XOR distance to `target` (insertion sort). -/
def sortByDist (target : Nat) : List Contact → List Contact
  | [] => []
  | x :: xs => insertByDist target x (sortByDist target xs)

/-- Modelled from the spec: `RoutingTable.find_close_nodes(target)` returns
up to K contacts with minimum XOR distance to the target, sorted ascending
by distance. -/
def find_close_nodes (rt : List Contact) (target : Nat) : List Contact :=
  (sortByDist target rt).take K

/-- Modelled from the spec: `DictDataStore.get(key, default)` as a
finite-map lookup (`none` standing for the falsy default). -/
def dsGet (ds : List (Nat × StoreMsg)) (key : Nat) : Option StoreMsg :=
  (ds.find? (fun p => p.1 == key)).map (fun p => p.2)

/-- Modelled from the spec: `DictDataStore.set_item(key, value)` replaces
any existing entry for the key. -/
def dsSet (ds : List (Nat × StoreMsg)) (key : Nat) (v : StoreMsg) : List (Nat × StoreMsg) :=
  (key, v) :: ds.eraseP (fun p => p.1 == key)

/-- Embedding of `response_timeout` (node.py 38-50): if the message's uuid
is still pending, cancel the deferred, delete the pending entry, abort the
transport connection and call `routing_table.remove_contact(message.node)`;
otherwise do nothing. -/
def response_timeout (msg : Message) (st : NodeState) : NodeState × List Effect :=
  match List.lookup (Message.uuid msg) st.pending with
  | some d =>
      ({ st with
          pending := st.pending.eraseP (fun p => p.1 == Message.uuid msg),
          routingTable := remove_contact st.routingTable (Message.node msg) },
       [Effect.cancelDeferred d, Effect.abortConnection,
        Effect.removeContact (Message.node msg) false])
  | none => (st, [])

/-- Embedding of the message construction in `Node.send_ping` (node.py
360-367): the outbound Ping carries the local node's id in its `node`
field. -/
def send_ping_message (st : NodeState) (new_uuid : String) : PingMsg :=
  { uuid := new_uuid, node := st.id, version := st.version }

/-- Embedding of the `on_connect` closure of `Node.send_message` (node.py
185-193): send the message, register the deferred under the message's uuid
and schedule `response_timeout` for the same message object after
`RESPONSE_TIMEOUT`. -/
def on_connect (st : NodeState) (msg : Message) (d : Nat) : NodeState × List Effect :=
  ({ st with pending := (Message.uuid msg, d) :: st.pending },
   [Effect.send msg false,
    Effect.callLater RESPONSE_TIMEOUT (ScheduledCall.responseTimeout msg)])

/-- Embedding of `Node.trigger_deferred` (node.py 204-217): if the
message's uuid is pending, fire the deferred (errback when an error is
given, callback otherwise) and delete the pending entry. -/
def trigger_deferred (st : NodeState) (msg : Message) (err : Option String) :
    NodeState × List Effect :=
  match List.lookup (Message.uuid msg) st.pending with
  | some d =>
      ({ st with pending := st.pending.eraseP (fun p => p.1 == Message.uuid msg) },
       match err with
       | some e => [Effect.errback d e msg]
       | none => [Effect.callback d msg])
  | none => (st, [])

/-- Embedding of `Node.handle_ping` (node.py 219-225): reply with a Pong
echoing the uuid, then close. -/
def handle_ping (st : NodeState) (m : PingMsg) : NodeState × List Effect :=
  (st, [Effect.send (Message.pong { uuid := m.uuid, node := st.id, version := st.version }) true])

/-- Embedding of `Node.handle_pong` (node.py 227-231). -/
def handle_pong (st : NodeState) (m : PongMsg) : NodeState × List Effect :=
  trigger_deferred st (Message.pong m) none

/-- The accepting tail of `Node.handle_store` (node.py 259-267): store the
record, reply with a Pong echoing the uuid, and schedule
`send_replicate(message)` after `REPLICATE_INTERVAL`. Nothing in the source
ever cancels this scheduled call, and `send_replicate` itself (node.py
386-401) has its entire body commented out. -/
def handle_store_accept (st : NodeState) (m : StoreMsg) : NodeState × List Effect × Outcome :=
  ({ st with dataStore := dsSet st.dataStore m.key m },
   [Effect.send (Message.pong { uuid := m.uuid, node := st.id, version := st.version }) true,
    Effect.callLater REPLICATE_INTERVAL (ScheduledCall.sendReplicate m)],
   Outcome.ok)

/-- Embedding of `Node.handle_store` (node.py 233-278). The crypto
`validate_message` is not part of the snapshot and is passed as an oracle
parameter `v` returning `(is_valid, err_code)`. On a valid message whose
timestamp is older than the stored record's, raise error 8 with
`new_timestamp` detail; on a valid fresh message, accept; on an invalid
message, force-remove the sender and raise the validator's error code. -/
def handle_store (v : StoreMsg → Bool × Nat) (st : NodeState) (m : StoreMsg)
    (sender : Contact) : NodeState × List Effect × Outcome :=
  let validation := v m
  if validation.1 then
    match dsGet st.dataStore m.key with
    | some current =>
        if m.timestamp < current.timestamp then
          (st, [],
           Outcome.raised 8 (ERRORS 8)
             [("new_timestamp", toString current.timestamp)] m.uuid)
        else
          handle_store_accept st m
    | none => handle_store_accept st m
  else
    ({ st with routingTable := remove_contact st.routingTable sender.id },
     [Effect.removeContact sender.id true],
     Outcome.raised validation.2 (ERRORS validation.2)
       [("message", "You have been removed from remote routing table.")] m.uuid)

/-- Embedding of `Node.handle_find_node` (node.py 280-292): respond with a
Nodes message listing `(id, address, port, version)` of the close contacts
the routing table returns for the target key. -/
def handle_find_node (st : NodeState) (uuid : String) (key : Nat) : NodeState × List Effect :=
  (st,
   [Effect.send
      (Message.nodes
        { uuid := uuid, node := st.id,
          nodes := (find_close_nodes st.routingTable key).map
            (fun n => (n.id, n.address, n.port, n.version)),
          version := st.version }) true])

/-- Embedding of `Node.handle_find_value` (node.py 294-310): if the data
store holds the key, respond with a Value message copying every field of
the stored record (including the record's own version); otherwise delegate
to `handle_find_node` with the same message. -/
def handle_find_value (st : NodeState) (m : FindValueMsg) : NodeState × List Effect :=
  match dsGet st.dataStore m.key with
  | some mtch =>
      (st,
       [Effect.send
          (Message.value
            { uuid := m.uuid, node := st.id, key := mtch.key, value := mtch.value,
              timestamp := mtch.timestamp, expires := mtch.expires,
              public_key := mtch.public_key, name := mtch.name, meta := mtch.meta,
              sig := mtch.sig, version := mtch.version }) true])
  | none => handle_find_node st m.uuid m.key

/-- Embedding of `Node.handle_error` (node.py 312-320): the body only logs
the error; it changes no state and produces no effects. -/
def handle_error (st : NodeState) (m : ErrorMsg) (sender : Contact) : NodeState × List Effect :=
  (st, [])

/-- Embedding of `Node.handle_value` (node.py 322-341): on a valid message
fire the pending deferred with it; on an invalid one force-remove the
sender from the routing table and errback the pending deferred with the
error title. The validator oracle `vV` stands for `validate_message`. -/
def handle_value (vV : ValueMsg → Bool × Nat) (st : NodeState) (m : ValueMsg)
    (sender : Contact) : NodeState × List Effect :=
  let validation := vV m
  if validation.1 then
    trigger_deferred st (Message.value m) none
  else
    let st2 : NodeState := { st with routingTable := remove_contact st.routingTable sender.id }
    let r := trigger_deferred st2 (Message.value m) (some (ERRORS validation.2))
    (r.1, Effect.removeContact sender.id true :: r.2)

/-- Embedding of `Node.handle_nodes` (node.py 343-348). -/
def handle_nodes (st : NodeState) (m : NodesMsg) : NodeState × List Effect :=
  trigger_deferred st (Message.nodes m) none

/-- Embedding of `Node.message_received` (node.py 141-168): build a Contact
for the sender from the transport peer and the message's `node` and
`version`, add it to the routing table, then dispatch on the message type
in the source's elif order. The `Effect.addContact` entry records the
unconditional `add_contact` call. -/
def message_received (v : StoreMsg → Bool × Nat) (vV : ValueMsg → Bool × Nat)
    (st : NodeState) (msg : Message) (peer : String × Nat) (now : Nat) :
    NodeState × List Effect × Outcome :=
  let other : Contact :=
    { id := Message.node msg, address := peer.1, port := peer.2,
      version := Message.version msg, last_seen := now }
  let st1 : NodeState := { st with routingTable := add_contact st.id st.routingTable other }
  match msg with
  | Message.ping m =>
      let r := handle_ping st1 m
      (r.1, Effect.addContact other :: r.2, Outcome.ok)
  | Message.pong m =>
      let r := handle_pong st1 m
      (r.1, Effect.addContact other :: r.2, Outcome.ok)
  | Message.store m =>
      let r := handle_store v st1 m other
      (r.1, Effect.addContact other :: r.2.1, r.2.2)
  | Message.findNode m =>
      let r := handle_find_node st1 m.uuid m.key
      (r.1, Effect.addContact other :: r.2, Outcome.ok)
  | Message.findValue m =>
      let r := handle_find_value st1 m
      (r.1, Effect.addContact other :: r.2, Outcome.ok)
  | Message.error m =>
      let r := handle_error st1 m other
      (r.1, Effect.addContact other :: r.2, Outcome.ok)
  | Message.value m =>
      let r := handle_value vV st1 m other
      (r.1, Effect.addContact other :: r.2, Outcome.ok)
  | Message.nodes m =>
      let r := handle_nodes st1 m
      (r.1, Effect.addContact other :: r.2, Outcome.ok)

/-- The observable outcome of `Lookup.__init__` (node.py 59-92): the seeded
shortlist, the list of `touch_kbucket` calls made, and the list of
`callback` firings (the payload of `self.callback(None)` is `none`). -/
structure LookupInit where
  shortlist : List Contact
  touchCalls : List Nat
  fired : List (Option String)
deriving DecidableEq, Repr

/-- Embedding of `Lookup.__init__` (node.py 59-92): seed the shortlist from
`routing_table.find_close_nodes(key)`; if the key differs from the local
node's id, call `touch_kbucket(key)`; if the shortlist is empty, fire the
lookup's own deferred with `None`. -/
def Lookup.init (rt : List Contact) (selfId : Nat) (key : Nat) : LookupInit :=
  let shortlist := find_close_nodes rt key
  let touchCalls := if key ≠ selfId then [key] else []
  let fired := if shortlist.isEmpty then [(none : Option String)] else []
  { shortlist := shortlist, touchCalls := touchCalls, fired := fired }

/-- Embedding of `KBucket.addContact` (kbucket.py 60-75): a contact already
present (Contact equality is by id, modelled from the spec) is removed and
re-appended at the tail; a new contact is appended when the bucket holds
fewer than K; otherwise `KBucketFull` is raised, modelled as `Except.error`
with the exception's text (the list is untouched in that branch). -/
def KBucket.addContact (contacts : List Contact) (c : Contact) : Except String (List Contact) :=
  if contacts.any (fun x => x.id == c.id) then
    Except.ok (contacts.eraseP (fun x => x.id == c.id) ++ [c])
  else if contacts.length < K then
    Except.ok (contacts ++ [c])
  else
    Except.error "No space in bucket to insert contact."

/-- Embedding of `KBucket.getContacts` (kbucket.py 86-121): a count of zero
or less is replaced by the bucket length; the three Python branches (empty
list, fewer contacts than requested, enough contacts) each slice from the
head of `_contacts`; finally the excluded contact, if present in the slice,
is removed (first match, by id — Contact equality is modelled from the
spec). -/
def KBucket.getContacts (contacts : List Contact) (count : Int) (excludeContact : Option Nat) :
    List Contact :=
  let cnt : Int := if count ≤ 0 then (contacts.length : Int) else count
  let contactList :=
    if contacts.isEmpty then []
    else if (contacts.length : Int) < cnt then contacts.take contacts.length
    else contacts.take cnt.toNat
  match excludeContact with
  | some e =>
      if contactList.any (fun x => x.id == e) then contactList.eraseP (fun x => x.id == e)
      else contactList
  | none => contactList

/-- Classifier for the response-type messages that are correlated to a
pending entry by uuid (Pong, Value, Nodes, Error). -/
def isResponse : Message → Bool
  | Message.pong _ => true
  | Message.value _ => true
  | Message.nodes _ => true
  | Message.error _ => true
  | _ => false

/-- The deferred-touching entries of an effect trace (callback, errback or
cancellation of a pending handle). -/
def deferredEffects (effs : List Effect) : List Effect :=
  effs.filter (fun e =>
    match e with
    | Effect.callback _ _ => true
    | Effect.errback _ _ _ => true
    | Effect.cancelDeferred _ => true
    | _ => false)

/-- Concrete record for the C3 witness, mirroring the spec scenario
(stored timestamp 1350544046). -/
def c3rec : StoreMsg :=
  { uuid := "u0", node := 5, key := 171, value := "oldvalue", timestamp := 1350544046,
    expires := 1350644046, public_key := "pk", name := "n", meta := "m", sig := "s",
    version := "0.1" }

/-- Concrete node state for the C3 witness. -/
def c3state : NodeState :=
  { id := 7, version := "0.1", routingTable := [], dataStore := [(171, c3rec)], pending := [] }

/-- Concrete stale Store message for the C3 witness (timestamp
1350534047 < 1350544046). -/
def c3msg : StoreMsg :=
  { uuid := "u3", node := 5, key := 171, value := "newvalue", timestamp := 1350534047,
    expires := 1350644046, public_key := "pk", name := "n", meta := "m", sig := "s",
    version := "0.1" }

/-- Concrete sender for the C3 witness. -/
def c3sender : Contact :=
  { id := 5, address := "192.168.1.1", port := 54321, version := "0.1", last_seen := 0 }

/-- Concrete already-expired Store message for the C4 failing input
(`expires = 5`, far in the past for any later clock value). -/
def c4msg : StoreMsg :=
  { uuid := "u4", node := 5, key := 200, value := "v", timestamp := 1350544046,
    expires := 5, public_key := "pk", name := "n", meta := "m", sig := "s",
    version := "0.1" }

/-- Concrete node state for the C4 failing input. -/
def c4state : NodeState :=
  { id := 7, version := "0.1", routingTable := [], dataStore := [], pending := [] }

/-- Concrete pending state for the C5 counterexample: uuid "u1" has a
pending deferred with handle 0. -/
def c5state : NodeState :=
  { id := 7, version := "0.1", routingTable := [], dataStore := [], pending := [("u1", 0)] }

/-- Concrete inbound Error message for C5, answering pending uuid "u1". -/
def c5msg : ErrorMsg :=
  { uuid := "u1", node := 5, code := 8, title := "Out of date data.",
    details := [("new_timestamp", "1350544046")], version := "0.2" }

/-- The contact `message_received` builds for the C5 sender. -/
def c5sender : Contact :=
  { id := 5, address := "192.168.1.1", port := 54321, version := "0.2", last_seen := 99 }

/-- Concrete stored record for the C6 witness. -/
def c6rec : StoreMsg :=
  { uuid := "u0", node := 5, key := 171, value := "stored", timestamp := 1350544046,
    expires := 1350644046, public_key := "pk", name := "n", meta := "m", sig := "s",
    version := "0.9" }

/-- Concrete FindValue request for the C6 witness. -/
def c6fv : FindValueMsg := { uuid := "u6", node := 5, key := 171, version := "0.1" }

/-- Node state without the requested key, for the C6 witness. -/
def c6stateEmpty : NodeState :=
  { id := 7, version := "0.1",
    routingTable := [Contact.mk 9 "192.168.1.1" 54321 "0.1" 0], dataStore := [], pending := [] }

/-- Node state holding the requested key, for the C6 witness. -/
def c6stateFull : NodeState :=
  { id := 7, version := "0.1",
    routingTable := [Contact.mk 9 "192.168.1.1" 54321 "0.1" 0],
    dataStore := [(171, c6rec)], pending := [] }

/-- Contact with id 1 and an old `last_seen`, for the C7 witness. -/
def c7a : Contact := { id := 1, address := "a", port := 1, version := "v", last_seen := 0 }

/-- The same peer as `c7a` (same id) seen again later, for the C7 witness. -/
def c7b : Contact := { id := 1, address := "a", port := 1, version := "v", last_seen := 5 }

/-- A fresh contact with a new id, for the C7 witness. -/
def c7c : Contact := { id := 2, address := "b", port := 2, version := "v", last_seen := 6 }

/-- A full k-bucket of K = 20 contacts, for the C7 witness. -/
def c7full : List Contact :=
  (List.range 20).map (fun i => Contact.mk i "a" 1 "v" 0)

/-- A contact whose id is not in `c7full`, for the C7 witness. -/
def c7new : Contact := { id := 99, address := "z", port := 9, version := "v", last_seen := 7 }

/-- The exclusion step at the end of `KBucket.getContacts`, isolated for
analysis: drop the first contact with the excluded id when one is present. -/
def applyExclude (ex : Option Nat) (l : List Contact) : List Contact :=
  match ex with
  | some e => if l.any (fun x => x.id == e) then l.eraseP (fun x => x.id == e) else l
  | none => l

/-- Head contact (least recently seen) of the C8 counterexample bucket. -/
def c8lru : Contact := { id := 1, address := "a", port := 1, version := "v", last_seen := 0 }

/-- Tail contact (most recently seen) of the C8 counterexample bucket. -/
def c8mru : Contact := { id := 2, address := "b", port := 2, version := "v", last_seen := 10 }

lemma trigger_deferred_not_pending (st : NodeState) (msg : Message) (err : Option String)
    (h : List.lookup (Message.uuid msg) st.pending = none) :
    trigger_deferred st msg err = (st, []) := by
  simp [trigger_deferred, h]

/-- C10: if the response-timeout callback fires for a uuid that is no longer
in the pending table, it changes nothing: the node state is unchanged and no
effect is produced (no handle cancelled or failed, no transport abort, no
routing-table removal). -/
theorem claim10_response_timeout_noop (msg : Message) (st : NodeState)
    (h : List.lookup (Message.uuid msg) st.pending = none) :
    response_timeout msg st = (st, []) := by
  simp [response_timeout, h]

theorem claim10_witness :
    List.lookup (Message.uuid (Message.ping { uuid := "u2", node := 7, version := "0.1" }))
        (NodeState.mk 7 "0.1" [] [] [("u1", 0)]).pending = none ∧
    response_timeout (Message.ping { uuid := "u2", node := 7, version := "0.1" })
        (NodeState.mk 7 "0.1" [] [] [("u1", 0)]) =
      (NodeState.mk 7 "0.1" [] [] [("u1", 0)], []) :=
  ⟨by decide, claim10_response_timeout_noop _ _ (by decide)⟩

/-- C1 (divergence at the failing input): the local node with id 7 sends a
Ping to the contact with id 9 and the response timeout fires. The pending
entry is removed, the deferred cancelled and the transport aborted as the
claim states, but because every outbound message carries the LOCAL node's id
in its `node` field, `remove_contact` is called with 7 (the local node's own
id) and never with 9 (`sent_to.id`), whose routing-table entry survives. -/
theorem claim1_timeout_evicts_local_id_not_target :
    let target : Contact :=
      { id := 9, address := "192.168.1.1", port := 54321, version := "0.1", last_seen := 0 }
    let st0 : NodeState :=
      { id := 7, version := "0.1", routingTable := [target], dataStore := [], pending := [] }
    let ping : Message := Message.ping (send_ping_message st0 "u1")
    let st1 : NodeState := (on_connect st0 ping 0).1
    Message.node ping = 7 ∧
    List.lookup "u1" st1.pending = some 0 ∧
    (response_timeout ping st1).1.pending = [] ∧
    (response_timeout ping st1).2 =
      [Effect.cancelDeferred 0, Effect.abortConnection, Effect.removeContact 7 false] ∧
    Effect.removeContact 9 false ∉ (response_timeout ping st1).2 ∧
    (response_timeout ping st1).1.routingTable = [target] := by
  decide

/-- C2 (counterexample): a Pong whose uuid is no longer in the pending table
still causes a routing-table change, because `message_received` calls
`add_contact` for the sender of every inbound message before dispatching:
with an empty routing table, processing the late Pong grows the table. -/
theorem claim2_counterexample_late_response_changes_routing :
    let st0 : NodeState :=
      { id := 7, version := "0.1", routingTable := [], dataStore := [], pending := [] }
    let msg : Message := Message.pong { uuid := "u2", node := 5, version := "0.2" }
    List.lookup (Message.uuid msg) st0.pending = none ∧
    (message_received (fun _ => (true, 0)) (fun _ => (true, 0)) st0 msg
        ("192.168.1.1", 54321) 99).1.routingTable ≠ st0.routingTable := by
  decide

/-- C2 (amended): for every response message (Pong, Value, Nodes, Error)
whose uuid is no longer in the pending table, processing the message fires
no deferred (no callback, errback or cancellation appears in the effect
trace) and leaves the pending table unchanged; the routing table may still
change, since every inbound message first refreshes its sender via
`add_contact` (and an invalid Value force-evicts the sender). -/
theorem claim2_late_response_fires_no_deferred (v : StoreMsg → Bool × Nat)
    (vV : ValueMsg → Bool × Nat) (st : NodeState) (msg : Message)
    (peer : String × Nat) (now : Nat)
    (hresp : isResponse msg = true)
    (h : List.lookup (Message.uuid msg) st.pending = none) :
    deferredEffects (message_received v vV st msg peer now).2.1 = [] ∧
    (message_received v vV st msg peer now).1.pending = st.pending := by
  cases msg with
  | pong m =>
      simp only [Message.uuid] at h
      simp [message_received, handle_pong, trigger_deferred, Message.uuid, h, deferredEffects]
  | value m =>
      simp only [Message.uuid] at h
      cases hv : (vV m).1 with
      | true =>
          simp [message_received, handle_value, trigger_deferred, Message.uuid, h, hv,
            deferredEffects]
      | false =>
          simp [message_received, handle_value, trigger_deferred, Message.uuid, h, hv,
            deferredEffects]
  | nodes m =>
      simp only [Message.uuid] at h
      simp [message_received, handle_nodes, trigger_deferred, Message.uuid, h, deferredEffects]
  | error m =>
      simp [message_received, handle_error, deferredEffects]
  | ping m => simp [isResponse] at hresp
  | store m => simp [isResponse] at hresp
  | findNode m => simp [isResponse] at hresp
  | findValue m => simp [isResponse] at hresp

theorem claim2_witness :
    isResponse (Message.pong { uuid := "u2", node := 5, version := "0.2" }) = true ∧
    List.lookup (Message.uuid (Message.pong { uuid := "u2", node := 5, version := "0.2" }))
      (NodeState.mk 7 "0.1" [] [] [("u1", 0)]).pending = none ∧
    (deferredEffects (message_received (fun _ => (true, 0)) (fun _ => (true, 0))
        (NodeState.mk 7 "0.1" [] [] [("u1", 0)])
        (Message.pong { uuid := "u2", node := 5, version := "0.2" })
        ("192.168.1.1", 54321) 99).2.1 = [] ∧
      (message_received (fun _ => (true, 0)) (fun _ => (true, 0))
        (NodeState.mk 7 "0.1" [] [] [("u1", 0)])
        (Message.pong { uuid := "u2", node := 5, version := "0.2" })
        ("192.168.1.1", 54321) 99).1.pending =
        (NodeState.mk 7 "0.1" [] [] [("u1", 0)]).pending) :=
  ⟨by decide, by decide,
   claim2_late_response_fires_no_deferred _ _ _ _ _ _ (by decide) (by decide)⟩

/-- C3: a Store message passing signature validation whose timestamp is
strictly below the stored record's raises error code 8 with
`details.new_timestamp` the string form of the stored record's timestamp,
echoes the request uuid, and leaves the data store unchanged, so a
subsequent get for the key still yields the previously stored record. -/
theorem claim3_stale_store_rejected (v : StoreMsg → Bool × Nat) (st : NodeState)
    (m : StoreMsg) (sender : Contact) (current : StoreMsg)
    (hv : (v m).1 = true)
    (hcur : dsGet st.dataStore m.key = some current)
    (hts : m.timestamp < current.timestamp) :
    handle_store v st m sender =
      (st, [],
       Outcome.raised 8 (ERRORS 8) [("new_timestamp", toString current.timestamp)] m.uuid) ∧
    dsGet (handle_store v st m sender).1.dataStore m.key = some current := by
  have h1 : handle_store v st m sender =
      (st, [],
       Outcome.raised 8 (ERRORS 8) [("new_timestamp", toString current.timestamp)] m.uuid) := by
    simp [handle_store, hv, hcur, hts]
  exact ⟨h1, by rw [h1]; exact hcur⟩

theorem claim3_witness :
    ((fun _ : StoreMsg => (true, 0)) c3msg).1 = true ∧
    dsGet c3state.dataStore c3msg.key = some c3rec ∧
    c3msg.timestamp < c3rec.timestamp ∧
    (handle_store (fun _ => (true, 0)) c3state c3msg c3sender =
      (c3state, [],
       Outcome.raised 8 (ERRORS 8) [("new_timestamp", toString c3rec.timestamp)] c3msg.uuid) ∧
     dsGet (handle_store (fun _ => (true, 0)) c3state c3msg c3sender).1.dataStore c3msg.key =
       some c3rec) :=
  ⟨rfl, by decide, by decide,
   claim3_stale_store_rejected (fun _ => (true, 0)) c3state c3msg c3sender c3rec rfl
     (by decide) (by decide)⟩

/-- C4 (evaluation at the failing input): a valid Store whose `expires` has
already passed is stored, answered with a Pong echoing its uuid, and a
`send_replicate` call is scheduled after `REPLICATE_INTERVAL` anyway — the
effect trace is exactly the send and the schedule, so no cancellation of
the scheduled call exists anywhere (nothing in the source ever cancels it,
and `send_replicate` itself is a commented-out stub); `handle_store` never
consults the clock at all. -/
theorem claim4_expired_store_schedule_never_cancelled :
    handle_store (fun _ => (true, 0)) c4state c4msg c3sender =
      ({ c4state with dataStore := [(200, c4msg)] },
       [Effect.send (Message.pong { uuid := "u4", node := 7, version := "0.1" }) true,
        Effect.callLater REPLICATE_INTERVAL (ScheduledCall.sendReplicate c4msg)],
       Outcome.ok) ∧
    c4msg.expires = 5 := by
  decide

/-- C5 (counterexample): an inbound Error whose uuid has a pending handle
does NOT fail that handle — handling it produces only the generic
`add_contact` refresh of the sender, no errback, and the pending entry for
"u1" survives untouched. -/
theorem claim5_counterexample_error_leaves_pending :
    List.lookup "u1" c5state.pending = some 0 ∧
    message_received (fun _ => (true, 0)) (fun _ => (true, 0)) c5state (Message.error c5msg)
        ("192.168.1.1", 54321) 99 =
      ({ c5state with routingTable := [c5sender] }, [Effect.addContact c5sender], Outcome.ok) := by
  decide

/-- C5 (amended): handling an inbound Error message only logs: beyond the
generic sender refresh performed for every inbound message, it changes
nothing — no pending handle is failed or removed and the sender is not
evicted from the routing table. -/
theorem claim5_error_handler_only_logs (v : StoreMsg → Bool × Nat)
    (vV : ValueMsg → Bool × Nat) (st : NodeState) (m : ErrorMsg)
    (peer : String × Nat) (now : Nat) :
    message_received v vV st (Message.error m) peer now =
      ({ st with
          routingTable :=
            add_contact st.id st.routingTable (Contact.mk m.node peer.1 peer.2 m.version now) },
       [Effect.addContact (Contact.mk m.node peer.1 peer.2 m.version now)],
       Outcome.ok) := by
  rfl

/-- C6: a FindValue whose key is absent from the data store is handled
exactly as a FindNode with the same uuid and key; when the key is held, the
reply is a Value message copying the full stored record; and every
FindNode reply carries at most K contacts. -/
theorem claim6_find_value_refines_find_node (st : NodeState) (m : FindValueMsg) :
    (dsGet st.dataStore m.key = none →
      handle_find_value st m = handle_find_node st m.uuid m.key) ∧
    (∀ r, dsGet st.dataStore m.key = some r →
      handle_find_value st m =
        (st, [Effect.send (Message.value
          { uuid := m.uuid, node := st.id, key := r.key, value := r.value,
            timestamp := r.timestamp, expires := r.expires, public_key := r.public_key,
            name := r.name, meta := r.meta, sig := r.sig, version := r.version }) true])) ∧
    (∀ u k, (handle_find_node st u k).2 =
        [Effect.send (Message.nodes
          { uuid := u, node := st.id,
            nodes := (find_close_nodes st.routingTable k).map
              (fun n => (n.id, n.address, n.port, n.version)),
            version := st.version }) true] ∧
      (find_close_nodes st.routingTable k).length ≤ K) := by
  refine ⟨fun h => by simp [handle_find_value, h],
          fun r h => by simp [handle_find_value, h],
          fun u k => ⟨rfl, ?_⟩⟩
  unfold find_close_nodes
  exact List.length_take_le K _

theorem claim6_witness :
    dsGet c6stateEmpty.dataStore c6fv.key = none ∧
    handle_find_value c6stateEmpty c6fv = handle_find_node c6stateEmpty c6fv.uuid c6fv.key ∧
    dsGet c6stateFull.dataStore c6fv.key = some c6rec ∧
    handle_find_value c6stateFull c6fv =
      (c6stateFull, [Effect.send (Message.value
        { uuid := c6fv.uuid, node := c6stateFull.id, key := c6rec.key, value := c6rec.value,
          timestamp := c6rec.timestamp, expires := c6rec.expires,
          public_key := c6rec.public_key, name := c6rec.name, meta := c6rec.meta,
          sig := c6rec.sig, version := c6rec.version }) true]) :=
  ⟨by decide, (claim6_find_value_refines_find_node c6stateEmpty c6fv).1 (by decide),
   by decide, (claim6_find_value_refines_find_node c6stateFull c6fv).2.1 c6rec (by decide)⟩

/-- C7: adding a contact whose id is already in the k-bucket keeps the
bucket length and moves that contact (with its fresh `last_seen`) to the
most-recently-seen tail; a new contact is appended at the tail while the
bucket holds fewer than K; with exactly K contacts and a new id the call
fails with the `KBucketFull` error and returns no modified list. -/
theorem claim7_kbucket_add (contacts : List Contact) (c : Contact) :
    (contacts.any (fun x => x.id == c.id) = true →
      KBucket.addContact contacts c =
        Except.ok (contacts.eraseP (fun x => x.id == c.id) ++ [c]) ∧
      (contacts.eraseP (fun x => x.id == c.id) ++ [c]).length = contacts.length ∧
      (contacts.eraseP (fun x => x.id == c.id) ++ [c]).getLast? = some c) ∧
    (contacts.any (fun x => x.id == c.id) = false → contacts.length < K →
      KBucket.addContact contacts c = Except.ok (contacts ++ [c])) ∧
    (contacts.any (fun x => x.id == c.id) = false → contacts.length = K →
      KBucket.addContact contacts c = Except.error "No space in bucket to insert contact.") := by
  refine ⟨fun h => ⟨by simp [KBucket.addContact, h], ?_, List.getLast?_concat _⟩,
          fun h hlen => by simp [KBucket.addContact, h, hlen],
          fun h hlen => by simp [KBucket.addContact, h, hlen]⟩
  obtain ⟨x, hx, hpx⟩ := List.any_eq_true.mp h
  have hlen := @List.length_eraseP_add_one _ (fun y => y.id == c.id) contacts x hx hpx
  simp only [List.length_append, List.length_cons, List.length_nil]
  omega

theorem claim7_witness :
    ([c7a].any (fun x => x.id == c7b.id) = true ∧
     (KBucket.addContact [c7a] c7b =
        Except.ok ([c7a].eraseP (fun x => x.id == c7b.id) ++ [c7b]) ∧
      ([c7a].eraseP (fun x => x.id == c7b.id) ++ [c7b]).length = [c7a].length ∧
      ([c7a].eraseP (fun x => x.id == c7b.id) ++ [c7b]).getLast? = some c7b)) ∧
    KBucket.addContact [c7a] c7c = Except.ok ([c7a] ++ [c7c]) ∧
    KBucket.addContact c7full c7new = Except.error "No space in bucket to insert contact." :=
  ⟨⟨by decide, (claim7_kbucket_add [c7a] c7b).1 (by decide)⟩,
   (claim7_kbucket_add [c7a] c7c).2.1 (by decide) (by decide),
   (claim7_kbucket_add c7full c7new).2.2 (by decide) (by decide)⟩

lemma applyExclude_sublist (ex : Option Nat) (l : List Contact) :
    (applyExclude ex l).Sublist l := by
  cases ex with
  | none => exact List.Sublist.refl l
  | some e =>
      show (if (l.any fun x => x.id == e) = true
            then l.eraseP (fun x => x.id == e) else l).Sublist l
      split
      · exact List.eraseP_sublist l
      · exact List.Sublist.refl l

lemma applyExclude_length_le (ex : Option Nat) (l : List Contact) :
    (applyExclude ex l).length ≤ l.length :=
  (applyExclude_sublist ex l).length_le

lemma applyExclude_not_mem (e : Nat) (l : List Contact)
    (hnd : (l.map Contact.id).Nodup) :
    ∀ x ∈ applyExclude (some e) l, x.id ≠ e := by
  intro x hx hxe
  have hx2 : x ∈ (if (l.any fun y => y.id == e) = true
      then l.eraseP (fun y => y.id == e) else l) := hx
  clear hx
  rename' hx2 => hx
  by_cases hany : (l.any fun y => y.id == e) = true
  · rw [if_pos hany] at hx
    obtain ⟨a, ha, hpa⟩ := List.any_eq_true.mp hany
    obtain ⟨a2, l1, l2, hl1, hpa2, hsplit, herase⟩ :=
      @List.exists_of_eraseP _ (fun y => y.id == e) l a ha hpa
    rw [herase] at hx
    have hae : a2.id = e := by simpa using hpa2
    rcases List.mem_append.mp hx with hx1 | hx2
    · have := hl1 x hx1
      simp [hxe] at this
    · have hmap : l.map Contact.id = l1.map Contact.id ++ a2.id :: l2.map Contact.id := by
        rw [hsplit]; simp
      rw [hmap] at hnd
      have h2 : (a2.id :: l2.map Contact.id).Nodup := hnd.of_append_right
      have h3 : a2.id ∉ l2.map Contact.id := (List.nodup_cons.mp h2).1
      exact h3 (by rw [hae, ← hxe]; exact List.mem_map_of_mem Contact.id hx2)
  · rw [if_neg hany] at hx
    have hfalse : l.any (fun y => y.id == e) = false := Bool.of_not_eq_true hany
    have := List.any_eq_false.mp hfalse x hx
    simp [hxe] at this

lemma getContacts_eq_take (contacts : List Contact) (count : Int) (ex : Option Nat) :
    KBucket.getContacts contacts count ex =
      applyExclude ex (contacts.take (if count ≤ 0 then contacts.length else count.toNat)) := by
  have hcore :
      (if contacts.isEmpty then ([] : List Contact)
       else if (contacts.length : Int) < (if count ≤ 0 then (contacts.length : Int) else count)
       then contacts.take contacts.length
       else contacts.take ((if count ≤ 0 then (contacts.length : Int) else count)).toNat)
      = contacts.take (if count ≤ 0 then contacts.length else count.toNat) := by
    by_cases hc : count ≤ 0
    · simp only [if_pos hc, lt_self_iff_false, if_false, Int.toNat_ofNat]
      by_cases hemp : contacts.isEmpty
      · have : contacts = [] := List.isEmpty_iff.mp hemp
        subst this
        simp
      · rw [if_neg hemp]
    · simp only [if_neg hc]
      by_cases hemp : contacts.isEmpty
      · have : contacts = [] := List.isEmpty_iff.mp hemp
        subst this
        simp
      · rw [if_neg hemp]
        by_cases hlt : (contacts.length : Int) < count
        · rw [if_pos hlt, List.take_length, Eq.comm, List.take_of_length_le]
          omega
        · rw [if_neg hlt]
    
  cases ex with
  | none =>
      show (if contacts.isEmpty then ([] : List Contact)
            else if (contacts.length : Int) < (if count ≤ 0 then (contacts.length : Int) else count)
            then contacts.take contacts.length
            else contacts.take ((if count ≤ 0 then (contacts.length : Int) else count)).toNat)
          = applyExclude none (contacts.take (if count ≤ 0 then contacts.length else count.toNat))
      rw [hcore]
      rfl
  | some e =>
      show (let contactList :=
              if contacts.isEmpty then ([] : List Contact)
              else if (contacts.length : Int) < (if count ≤ 0 then (contacts.length : Int) else count)
              then contacts.take contacts.length
              else contacts.take ((if count ≤ 0 then (contacts.length : Int) else count)).toNat
            if (contactList.any fun x => x.id == e) = true
            then contactList.eraseP (fun x => x.id == e) else contactList)
          = applyExclude (some e) (contacts.take (if count ≤ 0 then contacts.length else count.toNat))
      simp only [hcore]
      rfl

/-- C8 (counterexample): in the bucket `[c8lru, c8mru]` (least recently seen
at the head, most recently seen at the tail) `getContacts 1` returns the
HEAD — the least recently seen contact — whereas tail-first recency order,
as the claim states it, would return the most recently seen `c8mru`. -/
theorem claim8_counterexample_head_not_tail :
    KBucket.getContacts [c8lru, c8mru] 1 none = [c8lru] ∧
    c8lru.last_seen < c8mru.last_seen ∧
    ([c8lru] : List Contact) ≠ [c8mru] := by
  decide

/-- C8 (amended): `getContacts(count, exclude)` returns up to `count`
contacts (all of them when `count ≤ 0`), taken from the HEAD of the bucket
in stored order — least recently seen first, the reverse of tail-first
recency order — and, when the bucket's ids are duplicate-free, no contact
with the excluded id appears in the result. -/
theorem claim8_get_contacts_head_order (contacts : List Contact) (count : Int)
    (ex : Option Nat) :
    (KBucket.getContacts contacts count ex).Sublist contacts ∧
    (0 < count → (KBucket.getContacts contacts count ex).length ≤ count.toNat) ∧
    (count ≤ 0 → ex = none → KBucket.getContacts contacts count ex = contacts) ∧
    (∀ e, ex = some e → (contacts.map Contact.id).Nodup →
      ∀ x ∈ KBucket.getContacts contacts count ex, x.id ≠ e) := by
  rw [getContacts_eq_take]
  refine ⟨?_, ?_, ?_, ?_⟩
  · exact (applyExclude_sublist _ _).trans (List.take_sublist _ _)
  · intro hpos
    have hneg : ¬ count ≤ 0 := by omega
    simp only [if_neg hneg]
    have h1 := applyExclude_length_le ex (contacts.take count.toNat)
    have h2 : (contacts.take count.toNat).length ≤ count.toNat := List.length_take_le _ _
    omega
  · intro hle hex
    subst hex
    rw [if_pos hle, List.take_length]
    rfl
  · intro e hex hnd x hx
    subst hex
    have hsub : ((contacts.take (if count ≤ 0 then contacts.length else count.toNat)).map
        Contact.id).Sublist (contacts.map Contact.id) :=
      (List.take_sublist _ _).map Contact.id
    exact applyExclude_not_mem e _ (hnd.sublist hsub) x hx

theorem claim8_witness :
    (KBucket.getContacts [c8lru, c8mru] 1 none).Sublist [c8lru, c8mru] ∧
    (0 < (1 : Int) ∧ (KBucket.getContacts [c8lru, c8mru] 1 none).length ≤ (1 : Int).toNat) ∧
    ((-1 : Int) ≤ 0 ∧ KBucket.getContacts [c8lru, c8mru] (-1) none = [c8lru, c8mru]) ∧
    (([c8lru, c8mru].map Contact.id).Nodup ∧
      ∀ x ∈ KBucket.getContacts [c8lru, c8mru] 0 (some 1), x.id ≠ 1) :=
  ⟨(claim8_get_contacts_head_order [c8lru, c8mru] 1 none).1,
   ⟨by decide, (claim8_get_contacts_head_order [c8lru, c8mru] 1 none).2.1 (by decide)⟩,
   ⟨by decide, (claim8_get_contacts_head_order [c8lru, c8mru] (-1) none).2.2.1 (by decide) rfl⟩,
   ⟨by decide, (claim8_get_contacts_head_order [c8lru, c8mru] 0 (some 1)).2.2.2 1 rfl
     (by decide)⟩⟩

lemma length_insertByDist (target : Nat) (c : Contact) (l : List Contact) :
    (insertByDist target c l).length = l.length + 1 := by
  induction l with
  | nil => rfl
  | cons x xs ih =>
      unfold insertByDist
      split
      · simp
      · simp [ih]

lemma length_sortByDist (target : Nat) (l : List Contact) :
    (sortByDist target l).length = l.length := by
  induction l with
  | nil => rfl
  | cons x xs ih =>
      unfold sortByDist
      rw [length_insertByDist, ih]
      rfl

lemma sortByDist_eq_nil_iff (target : Nat) (l : List Contact) :
    sortByDist target l = [] ↔ l = [] := by
  constructor
  · intro h
    have hlen := length_sortByDist target l
    rw [h] at hlen
    exact List.length_eq_zero.mp (by simpa using hlen.symm)
  · intro h
    subst h
    rfl

lemma find_close_nodes_eq_nil_iff (rt : List Contact) (target : Nat) :
    find_close_nodes rt target = [] ↔ rt = [] := by
  unfold find_close_nodes
  rw [List.take_eq_nil_iff]
  simp [K, sortByDist_eq_nil_iff]

/-- C9: `Lookup.__init__` seeds its shortlist from
`routing_table.find_close_nodes(key)`; it calls `touch_kbucket(key)` exactly
once iff the key differs from the local node's id; it immediately fires its
own deferred with `None` (the no-peers-known signal) exactly when the seeded
shortlist is empty, which happens exactly when the routing table knows no
peers at all. -/
theorem claim9_lookup_init (rt : List Contact) (selfId : Nat) (key : Nat) :
    (Lookup.init rt selfId key).shortlist = find_close_nodes rt key ∧
    (Lookup.init rt selfId key).touchCalls = (if key = selfId then [] else [key]) ∧
    (Lookup.init rt selfId key).fired =
      (if find_close_nodes rt key = [] then [(none : Option String)] else []) ∧
    (find_close_nodes rt key = [] ↔ rt = []) := by
  refine ⟨rfl, ?_, ?_, find_close_nodes_eq_nil_iff rt key⟩
  · by_cases h : key = selfId
    · simp [Lookup.init, h]
    · simp [Lookup.init, h]
  · by_cases h : find_close_nodes rt key = []
    · simp [Lookup.init, List.isEmpty_iff, h]
    · simp [Lookup.init, List.isEmpty_iff, h]
